import Mathlib

set_option autoImplicit false

/-!
Shallow embedding of the dynamic-value runtime library of the `sprache`
transpiler (`libSAP`: `libJson.c` / `libAnyObj.c` as found in the source
tree).  The embedding covers the type-descriptor model, the dynamic
value/object representation, the runtime cast validator, the type renderer
and the JSON-to-dynamic-value bridge, translated clause by clause from the
C source.  External collaborators (the generic hash-map and list
containers and the JSON tokenizer/parser) are not part of this repository;
they are modelled by their interface contracts, as stated in the doc
comments of the corresponding definitions.
-/

namespace Sprache

/-- The closed set of runtime type kinds (`TypeKind` in `reflection.h`).
`reflection.h` itself is not under the sources at hand; the spec lists the
closed set in this order, with `None` first, so `tNone` is the
zero-valued enum member. -/
inductive TypeKind where
  | tNone
  | tInt
  | tFloat
  | tChar
  | tBool
  | tString
  | tList
  | tObject
  | tAnyObject
deriving DecidableEq, Repr

/-- `TypeDescriptor`: the structural tag of a dynamic value.  In C this is
a struct with members `kind`, `ptr_count`, `list_inner` (a possibly-NULL
pointer to the element descriptor) and `obj_fields` (a possibly-NULL
pointer to a hash map from field name to descriptor).  NULL pointers are
modelled by `Option.none`; the field hash map is modelled as an
association list in its enumeration order. -/
inductive TypeDescriptor where
  | mk (kind : TypeKind) (ptr_count : Nat)
       (list_inner : Option TypeDescriptor)
       (obj_fields : Option (List (String × TypeDescriptor)))

/-- Accessor for the `kind` member. -/
def TypeDescriptor.kind : TypeDescriptor → TypeKind
  | .mk k _ _ _ => k

/-- Accessor for the `ptr_count` member. -/
def TypeDescriptor.ptr_count : TypeDescriptor → Nat
  | .mk _ p _ _ => p

/-- Accessor for the `list_inner` member. -/
def TypeDescriptor.list_inner : TypeDescriptor → Option TypeDescriptor
  | .mk _ _ i _ => i

/-- Accessor for the `obj_fields` member. -/
def TypeDescriptor.obj_fields : TypeDescriptor → Option (List (String × TypeDescriptor))
  | .mk _ _ _ f => f

mutual

/-- `AnyValue`: a tagged dynamic value, C struct `{ TypeDescriptor type;
void *value; }`.  The untyped `void *` payload is modelled by the sum
`AnyPayload`, one variant per payload shape that the C code stores. -/
inductive AnyValue where
  | mk (type : TypeDescriptor) (value : AnyPayload)

/-- The payload behind the `void *value` member of `AnyValue`: nothing
(a NULL payload), a 64-bit integer, a double (modelled as a rational,
since the claims concern only which source field the number is read
from, never rounding), a boolean, a character, an owned string, an owned
list of values, or an owned dynamic object (string-keyed association
list of values, mirroring the hash map's enumeration order). -/
inductive AnyPayload where
  | null
  | int (n : Int)
  | float (x : Rat)
  | bool (b : Bool)
  | char (c : Char)
  | str (s : String)
  | list (elems : List AnyValue)
  | obj (fields : List (String × AnyValue))

end

/-- Accessor for the `type` member of `AnyValue`. -/
def AnyValue.type : AnyValue → TypeDescriptor
  | .mk t _ => t

/-- Accessor for the `value` member of `AnyValue`. -/
def AnyValue.value : AnyValue → AnyPayload
  | .mk _ v => v

/-- `AnyObject`: C struct `{ HashMap *fields; }`.  Modelled from the spec:
the string-keyed hash-map primitive (`hashmap_new` / `hashmap_insert` /
`hashmap_get` / `hashmap_keys`) lives outside this repository and is an
excluded collaborator; the spec describes it as a string-keyed mapping
with unique keys where insert overwrites, so it is modelled as an
association list with unique keys. -/
def AnyObject := List (String × AnyValue)

/-- Modelled from the spec: external hash-map lookup (`hashmap_get`).
Returns the value bound to `key`, if any. -/
def hashmap_get {α : Type} : List (String × α) → String → Option α
  | [], _ => Option.none
  | (k, v) :: rest, key => if k = key then some v else hashmap_get rest key

/-- Modelled from the spec: external hash-map insertion
(`hashmap_insert`).  Overwrites any existing binding for `key` (keys stay
unique); otherwise appends a new binding. -/
def hashmap_insert {α : Type} : List (String × α) → String → α → List (String × α)
  | [], key, v => [(key, v)]
  | (k, w) :: rest, key, v =>
    if k = key then (key, v) :: rest else (k, w) :: hashmap_insert rest key v

/-- Modelled from the spec: external hash-map key enumeration
(`hashmap_keys`), in the map's enumeration order. -/
def hashmap_keys {α : Type} (m : List (String × α)) : List String :=
  m.map Prod.fst

/-- `anyobj_new`: allocates an `AnyObject` with an empty field map. -/
def anyobj_new : AnyObject := []

/-- `anyobj_insert`: stores (a heap copy of) `value` under `key` in the
object's field map. -/
def anyobj_insert (obj : AnyObject) (key : String) (value : AnyValue) : AnyObject :=
  hashmap_insert obj key value

/-- `__hpi_internal_anyobj_take`: looks `key` up in the object's field
map; if found, returns (a copy of) the stored value, otherwise returns a
value whose descriptor is `{ .kind = TYPE_NONE }` (the remaining
descriptor members zero-initialized) and whose payload is NULL. -/
def hpi_internal_anyobj_take (obj : AnyObject) (key : String) : AnyValue :=
  match hashmap_get obj key with
  | some v => v
  | Option.none =>
    AnyValue.mk (TypeDescriptor.mk TypeKind.tNone 0 Option.none Option.none) AnyPayload.null

/-- `__hpi_internal_anyobj_keys`: returns fresh copies of all keys of the
object's field map, in enumeration order. -/
def hpi_internal_anyobj_keys (obj : AnyObject) : List String :=
  hashmap_keys obj

/-- Modelled from the spec: the JSON AST produced by the external
JSON parser (a collaborator outside this repository).  One variant per
discriminant value; object fields are the hash map in its enumeration
order, arrays are the element sequence in order.  In C every `JsonValue`
carries both numeric members; the embedding keeps, per variant, the
members that the embedded code reads, and additionally `num_float` on
the `float` variant so that which numeric member the conversion reads is
expressible. -/
inductive JsonValue where
  | object (fields : List (String × JsonValue))
  | array (elems : List JsonValue)
  | int (num_int : Int)
  | float (num_int : Int) (num_float : Rat)
  | bool (boolean : Bool)
  | string (s : String)

/-- The zero-initialized `TypeDescriptor`, as produced by the C
initializer `{ .ptr_count = 0, .list_inner = NULL, .obj_fields = NULL }`
which leaves `kind` at the enum's zero value, i.e. `TYPE_NONE`. -/
def zero_descriptor : TypeDescriptor :=
  TypeDescriptor.mk TypeKind.tNone 0 Option.none Option.none

mutual

/-- `__hpi_internal_anyvalue_from_json`: recursive conversion of a JSON
AST node into an `AnyValue`, one case per discriminant.  Objects become
`TYPE_ANY_OBJECT` values holding a fresh `AnyObject` filled key by key;
arrays become `TYPE_LIST` values whose `list_inner` is the final value of
the `inner` variable threaded through the element loop (initialized
zeroed); integers copy `num_int`; floats store `num_int` (not
`num_float`) as a double; booleans and strings copy their members.
(The debug `printf` calls of the C code produce no value and are not
modelled.) -/
def hpi_internal_anyvalue_from_json : JsonValue → AnyValue
  | .object fields =>
    AnyValue.mk (TypeDescriptor.mk TypeKind.tAnyObject 0 Option.none Option.none)
      (AnyPayload.obj (from_json_object_loop anyobj_new fields))
  | .array elems =>
    let p := from_json_array_loop zero_descriptor elems
    AnyValue.mk (TypeDescriptor.mk TypeKind.tList 0 (some p.2) Option.none)
      (AnyPayload.list p.1)
  | .int n =>
    AnyValue.mk (TypeDescriptor.mk TypeKind.tInt 0 Option.none Option.none)
      (AnyPayload.int n)
  | .float ni _nf =>
    AnyValue.mk (TypeDescriptor.mk TypeKind.tFloat 0 Option.none Option.none)
      (AnyPayload.float ((ni : Rat)))
  | .bool b =>
    AnyValue.mk (TypeDescriptor.mk TypeKind.tBool 0 Option.none Option.none)
      (AnyPayload.bool b)
  | .string s =>
    AnyValue.mk (TypeDescriptor.mk TypeKind.tString 0 Option.none Option.none)
      (AnyPayload.str s)

/-- The `JSON_TYPE_ARRAY` loop of `__hpi_internal_anyvalue_from_json`:
for each element in order, convert it, append the conversion to the
result list, and assign its descriptor to `inner`; returns the built
list together with the final value of `inner`. -/
def from_json_array_loop : TypeDescriptor → List JsonValue → (List AnyValue × TypeDescriptor)
  | inner, [] => ([], inner)
  | _inner, j :: rest =>
    let v := hpi_internal_anyvalue_from_json j
    let p := from_json_array_loop v.type rest
    (v :: p.1, p.2)

/-- The `JSON_TYPE_OBJECT` loop of `__hpi_internal_anyvalue_from_json`:
for each key of the source object in enumeration order, convert the
bound value and insert it under the same key into the accumulating
`AnyObject`. -/
def from_json_object_loop : AnyObject → List (String × JsonValue) → AnyObject
  | acc, [] => acc
  | acc, (k, j) :: rest =>
    from_json_object_loop (hashmap_insert acc k (hpi_internal_anyvalue_from_json j)) rest

end

mutual

/-- `display_type`: total renderer of a `TypeDescriptor` into a
human-readable (German) name, switching on `kind`.  For `TYPE_LIST` and
`TYPE_OBJECT` the C code dereferences `list_inner` / `obj_fields`
unconditionally; a NULL pointer there is undefined behavior in C and is
modelled as rendering the empty string (no descriptor built by this
library hits that case, per the §3 invariant). -/
def display_type : TypeDescriptor → String
  | TypeDescriptor.mk k _p inner fields =>
    match k with
    | TypeKind.tNone => "Nichts"
    | TypeKind.tInt => "Zahl"
    | TypeKind.tFloat => "Fließkommazahl"
    | TypeKind.tChar => "Zeichen"
    | TypeKind.tBool => "Wahrheitswert"
    | TypeKind.tList => "Liste von " ++ display_type_inner inner
    | TypeKind.tObject => "Objekt \x7b" ++ display_type_fields fields ++ "\x7d"
    | TypeKind.tAnyObject => "Speicherbox"
    | TypeKind.tString => "Zeichenkette"

/-- Rendering of the dereferenced `list_inner` member (NULL modelled as
the empty string; unreachable for well-formed descriptors). -/
def display_type_inner : Option TypeDescriptor → String
  | some t => display_type t
  | Option.none => ""

/-- Rendering of the dereferenced `obj_fields` member (NULL modelled as
the empty string; unreachable for well-formed descriptors). -/
def display_type_fields : Option (List (String × TypeDescriptor)) → String
  | some l => display_fields_loop l
  | Option.none => ""

/-- The `TYPE_OBJECT` field loop of `display_type`: each field renders as
its type, a space, and its name, with a comma-space separator between
consecutive fields. -/
def display_fields_loop : List (String × TypeDescriptor) → String
  | [] => ""
  | (k, t) :: rest =>
    display_type t ++ " " ++ k ++ (if rest.isEmpty then "" else ", ") ++
      display_fields_loop rest

end

/-- Outcome of running a piece of the C runtime that may call `exit`:
either the process terminates with the given exit code after printing the
given diagnostic, or the function returns a value to the caller. -/
inductive RunResult (α : Type) where
  | exitWith (code : Int) (output : String)
  | ok (a : α)
deriving DecidableEq

/-- `__hpi_internal_validate_runtime_cast`: returns immediately if the
two kinds are equal; otherwise jumps to `fail` (printing both rendered
type names, then `exit(-1)`) exactly when the `ptr_count` members differ;
otherwise falls through the `switch` (whose `TYPE_LIST` / `TYPE_OBJECT`
cases only hold TODO comments and `break`) and returns. -/
def validate_runtime_cast (as_type from_type : TypeDescriptor) : RunResult Unit :=
  if as_type.kind = from_type.kind then
    RunResult.ok ()
  else if as_type.ptr_count ≠ from_type.ptr_count then
    RunResult.exitWith (-1)
      ("Runtime error: Unsupported cast: Cannot cast value of type `" ++
        display_type from_type ++ "` to `" ++ display_type as_type ++ "`\n")
  else
    RunResult.ok ()

/-- `__hpi_internal_parse_json`: hands the input text to the external
JSON parser.  The external parser is modelled by its reported outcome:
`create_error` is the `error` member of the `parser_new` result,
`parse_error` / `parse_value` are the members of the `parse_json` result.
If either error member is set, the C code prints the parser's message and
calls `exit(-1)`; otherwise it returns the conversion of the parsed AST.
(The echoing `dynstring_print` of the input is not modelled.) -/
def hpi_internal_parse_json (create_error : Option String)
    (parse_error : Option String) (parse_value : JsonValue) : RunResult AnyValue :=
  match create_error with
  | some e => RunResult.exitWith (-1) ("Runtime JSON parse error: `" ++ e ++ "`\n")
  | Option.none =>
    match parse_error with
    | some e => RunResult.exitWith (-1) ("Runtime JSON parse error: `" ++ e ++ "`\n")
    | Option.none => RunResult.ok (hpi_internal_anyvalue_from_json parse_value)

/-! Helper lemmas shared by the claim theorems. -/

/-- Looking a key up right after inserting it yields the inserted value. -/
theorem hashmap_get_insert_self {α : Type} (m : List (String × α)) (k : String) (v : α) :
    hashmap_get (hashmap_insert m k v) k = some v := by
  induction m with
  | nil => simp [hashmap_insert, hashmap_get]
  | cons p rest ih =>
    obtain ⟨k1, v1⟩ := p
    by_cases h : k1 = k
    · simp [hashmap_insert, hashmap_get, h]
    · simp [hashmap_insert, hashmap_get, h, ih]

/-- The list built by the array loop is the in-order conversion of the
elements, independent of the threaded `inner` descriptor. -/
theorem from_json_array_loop_fst (l : List JsonValue) (inner : TypeDescriptor) :
    (from_json_array_loop inner l).1 = l.map hpi_internal_anyvalue_from_json := by
  induction l generalizing inner with
  | nil => rfl
  | cons j rest ih => simp [from_json_array_loop, ih]

/-- After processing a final element `j`, the threaded `inner` descriptor
is the descriptor of `j`'s conversion, whatever came before. -/
theorem from_json_array_loop_snd_append (l : List JsonValue) (j : JsonValue)
    (inner : TypeDescriptor) :
    (from_json_array_loop inner (l ++ [j])).2 =
      (hpi_internal_anyvalue_from_json j).type := by
  induction l generalizing inner with
  | nil => rfl
  | cons j1 rest ih => simp [from_json_array_loop, ih]

/-! The claim theorems. -/

/-- Claim C1, counterexample: `validateCast` with target kind `Int`,
source kind `String` and equal pointer depths (both 0) succeeds, refuting
the claim that such a cast never succeeds. -/
theorem c1_int_string_cast_succeeds :
    validate_runtime_cast (TypeDescriptor.mk TypeKind.tInt 0 Option.none Option.none)
      (TypeDescriptor.mk TypeKind.tString 0 Option.none Option.none) = RunResult.ok () := rfl

/-- Claim C1, amended: for target kind `Int` and source kind `String`,
`validateCast` succeeds when the pointer depths are equal, and fails with
the cast-mismatch diagnostic reporting both rendered type names (followed
by `exit(-1)`) exactly when the pointer depths differ. -/
theorem c1_int_string_cast_behavior (t s : TypeDescriptor)
    (h1 : t.kind = TypeKind.tInt) (h2 : s.kind = TypeKind.tString) :
    (t.ptr_count = s.ptr_count → validate_runtime_cast t s = RunResult.ok ()) ∧
    (t.ptr_count ≠ s.ptr_count → validate_runtime_cast t s =
      RunResult.exitWith (-1)
        ("Runtime error: Unsupported cast: Cannot cast value of type `" ++
          display_type s ++ "` to `" ++ display_type t ++ "`\n")) := by
  constructor
  · intro hp
    simp [validate_runtime_cast, h1, h2, hp]
  · intro hp
    simp [validate_runtime_cast, h1, h2, hp]

/-- Claim C1, witness: concrete instance with pointer depths 0 and 1;
the cast fails with the fully rendered diagnostic. -/
theorem c1_int_string_cast_behavior_witness :
    (TypeDescriptor.mk TypeKind.tInt 0 Option.none Option.none).kind = TypeKind.tInt ∧
    (TypeDescriptor.mk TypeKind.tString 1 Option.none Option.none).kind = TypeKind.tString ∧
    validate_runtime_cast (TypeDescriptor.mk TypeKind.tInt 0 Option.none Option.none)
      (TypeDescriptor.mk TypeKind.tString 1 Option.none Option.none) =
      RunResult.exitWith (-1)
        ("Runtime error: Unsupported cast: Cannot cast value of type " ++
          "`Zeichenkette` to `Zahl`\n") :=
  ⟨rfl, rfl,
    (c1_int_string_cast_behavior
      (TypeDescriptor.mk TypeKind.tInt 0 Option.none Option.none)
      (TypeDescriptor.mk TypeKind.tString 1 Option.none Option.none)
      rfl rfl).2 (by decide)⟩

/-- Claim C2, counterexample: with equal kinds (`Int`) the pointer depths
are not checked at all: a cast from pointer depth 1 to pointer depth 0
succeeds, refuting the claim that success implies equal pointer depths. -/
theorem c2_equal_kinds_skip_ptr_check :
    validate_runtime_cast (TypeDescriptor.mk TypeKind.tInt 0 Option.none Option.none)
      (TypeDescriptor.mk TypeKind.tInt 1 Option.none Option.none) = RunResult.ok () ∧
    (TypeDescriptor.mk TypeKind.tInt 0 Option.none Option.none).ptr_count ≠
      (TypeDescriptor.mk TypeKind.tInt 1 Option.none Option.none).ptr_count :=
  ⟨rfl, by decide⟩

/-- Claim C2, amended: pointer-depth equality is necessary for a
successful cast only between distinct kinds — if `validateCast` succeeds
and the kinds differ, the pointer depths are equal (equal kinds
short-circuit before the pointer-depth check). -/
theorem c2_success_with_distinct_kinds_implies_ptr_match (t s : TypeDescriptor)
    (hok : validate_runtime_cast t s = RunResult.ok ())
    (hk : t.kind ≠ s.kind) : t.ptr_count = s.ptr_count := by
  by_contra hp
  simp [validate_runtime_cast, hk, hp] at hok

/-- Claim C2, witness: concrete distinct-kind success from which the
amended theorem extracts the pointer-depth equality. -/
theorem c2_success_with_distinct_kinds_implies_ptr_match_witness :
    validate_runtime_cast (TypeDescriptor.mk TypeKind.tInt 0 Option.none Option.none)
      (TypeDescriptor.mk TypeKind.tString 0 Option.none Option.none) = RunResult.ok () ∧
    (TypeDescriptor.mk TypeKind.tInt 0 Option.none Option.none).kind ≠
      (TypeDescriptor.mk TypeKind.tString 0 Option.none Option.none).kind ∧
    (TypeDescriptor.mk TypeKind.tInt 0 Option.none Option.none).ptr_count =
      (TypeDescriptor.mk TypeKind.tString 0 Option.none Option.none).ptr_count :=
  ⟨rfl, by decide,
    c2_success_with_distinct_kinds_implies_ptr_match
      (TypeDescriptor.mk TypeKind.tInt 0 Option.none Option.none)
      (TypeDescriptor.mk TypeKind.tString 0 Option.none Option.none)
      rfl (by decide)⟩

/-- Claim C3: converting a JSON `Float` node yields a `TYPE_FLOAT`
descriptor whose double payload is read from the node's integer member
`num_int` (the member the `Int` case reads), and the result does not
depend on the float-specific member `num_float`. -/
theorem c3_float_case_reads_integer_member :
    (∀ (ni : Int) (nf : Rat),
      hpi_internal_anyvalue_from_json (JsonValue.float ni nf) =
        AnyValue.mk (TypeDescriptor.mk TypeKind.tFloat 0 Option.none Option.none)
          (AnyPayload.float ((ni : Rat)))) ∧
    (∀ (ni : Int) (nf nf' : Rat),
      hpi_internal_anyvalue_from_json (JsonValue.float ni nf) =
        hpi_internal_anyvalue_from_json (JsonValue.float ni nf')) :=
  ⟨fun _ _ => rfl, fun _ _ _ => rfl⟩

/-- Claim C4: converting a non-empty JSON array (written `l ++ [j]`, so
`j` is its last element) yields a `TYPE_LIST` descriptor whose
`list_inner` is the descriptor of the conversion of the last element
only, and whose payload is the in-order conversion of every element. -/
theorem c4_list_element_type_is_last_element (l : List JsonValue) (j : JsonValue) :
    hpi_internal_anyvalue_from_json (JsonValue.array (l ++ [j])) =
      AnyValue.mk
        (TypeDescriptor.mk TypeKind.tList 0
          (some (hpi_internal_anyvalue_from_json j).type) Option.none)
        (AnyPayload.list ((l ++ [j]).map hpi_internal_anyvalue_from_json)) := by
  simp [hpi_internal_anyvalue_from_json, from_json_array_loop_fst,
    from_json_array_loop_snd_append]

/-- Claim C5: whenever the two descriptors have equal kinds and equal
pointer depths, `validateCast` succeeds — for arbitrary descriptors, so
in particular for `List`/`Object` descriptors whose nested
`list_inner`/`obj_fields` differ arbitrarily (no recursive structural
comparison takes place). -/
theorem c5_same_kind_same_ptr_cast_succeeds (t s : TypeDescriptor)
    (hk : t.kind = s.kind) (_hp : t.ptr_count = s.ptr_count) :
    validate_runtime_cast t s = RunResult.ok () := by
  simp [validate_runtime_cast, hk]

/-- Claim C5, witness: two list descriptors with different element types
(`Liste von Zahl` vs `Liste von Zeichenkette`); the cast succeeds. -/
theorem c5_same_kind_same_ptr_cast_succeeds_witness :
    (TypeDescriptor.mk TypeKind.tList 0
        (some (TypeDescriptor.mk TypeKind.tInt 0 Option.none Option.none)) Option.none).kind =
      (TypeDescriptor.mk TypeKind.tList 0
        (some (TypeDescriptor.mk TypeKind.tString 0 Option.none Option.none)) Option.none).kind ∧
    validate_runtime_cast
      (TypeDescriptor.mk TypeKind.tList 0
        (some (TypeDescriptor.mk TypeKind.tInt 0 Option.none Option.none)) Option.none)
      (TypeDescriptor.mk TypeKind.tList 0
        (some (TypeDescriptor.mk TypeKind.tString 0 Option.none Option.none)) Option.none) =
      RunResult.ok () :=
  ⟨rfl,
    c5_same_kind_same_ptr_cast_succeeds
      (TypeDescriptor.mk TypeKind.tList 0
        (some (TypeDescriptor.mk TypeKind.tInt 0 Option.none Option.none)) Option.none)
      (TypeDescriptor.mk TypeKind.tList 0
        (some (TypeDescriptor.mk TypeKind.tString 0 Option.none Option.none)) Option.none)
      rfl rfl⟩

/-- Claim C6: `take` on a key that is not bound in the object returns a
value with a `TYPE_NONE` descriptor (remaining members zeroed) and a NULL
payload instead of signaling an error; and `take` after explicitly
storing exactly such a `None` value under the key returns the same value,
so a missing key and a stored `None` are indistinguishable through
`take`. -/
theorem c6_take_missing_key_yields_none :
    (∀ (obj : AnyObject) (key : String), hashmap_get obj key = Option.none →
      hpi_internal_anyobj_take obj key =
        AnyValue.mk (TypeDescriptor.mk TypeKind.tNone 0 Option.none Option.none)
          AnyPayload.null) ∧
    (∀ (obj : AnyObject) (key : String),
      hpi_internal_anyobj_take
        (anyobj_insert obj key
          (AnyValue.mk (TypeDescriptor.mk TypeKind.tNone 0 Option.none Option.none)
            AnyPayload.null)) key =
        AnyValue.mk (TypeDescriptor.mk TypeKind.tNone 0 Option.none Option.none)
          AnyPayload.null) := by
  constructor
  · intro obj key h
    simp [hpi_internal_anyobj_take, h]
  · intro obj key
    simp [hpi_internal_anyobj_take, anyobj_insert, hashmap_get_insert_self]

/-- Claim C6, witness: the fresh empty object has no binding for `"a"`,
and `take` on it returns the `None` value. -/
theorem c6_take_missing_key_yields_none_witness :
    hashmap_get anyobj_new "a" = Option.none ∧
    hpi_internal_anyobj_take anyobj_new "a" =
      AnyValue.mk (TypeDescriptor.mk TypeKind.tNone 0 Option.none Option.none)
        AnyPayload.null :=
  ⟨rfl, c6_take_missing_key_yields_none.1 anyobj_new "a" rfl⟩

/-- Claim C7: inserting a value and immediately taking it back by the
same key returns exactly the inserted value (hence identical `type.kind`
and equal payload), on every object — in particular insert overwrites
any existing binding for the key, as the second conjunct states for the
underlying map. -/
theorem c7_insert_take_roundtrip :
    ∀ (obj : AnyObject) (key : String) (v : AnyValue),
      hpi_internal_anyobj_take (anyobj_insert obj key v) key = v ∧
      hashmap_get (anyobj_insert obj key v) key = some v := by
  intro obj key v
  constructor
  · simp [hpi_internal_anyobj_take, anyobj_insert, hashmap_get_insert_self]
  · simp [anyobj_insert, hashmap_get_insert_self]

/-- Claim C8: if the external parser's construction or parse step
reports an error, the parse entry point terminates the process (exit
code -1) right after printing a diagnostic embedding the parser's
message, and never returns a value; if both steps succeed, it returns
the JSON-to-dynamic-value conversion of the parsed AST. -/
theorem c8_parse_json_fatal_on_parser_error :
    (∀ (e : String) (pe : Option String) (v : JsonValue),
      hpi_internal_parse_json (some e) pe v =
        RunResult.exitWith (-1) ("Runtime JSON parse error: `" ++ e ++ "`\n")) ∧
    (∀ (e : String) (v : JsonValue),
      hpi_internal_parse_json Option.none (some e) v =
        RunResult.exitWith (-1) ("Runtime JSON parse error: `" ++ e ++ "`\n")) ∧
    (∀ (v : JsonValue),
      hpi_internal_parse_json Option.none Option.none v =
        RunResult.ok (hpi_internal_anyvalue_from_json v)) :=
  ⟨fun _ _ _ => rfl, fun _ _ => rfl, fun _ => rfl⟩

/-- Claim C9: the renderer (a total Lean function) maps the descriptor of
every converted primitive JSON value to its fixed localized name, and
renders every `List` descriptor as the fixed prefix followed by the
rendering of its element type. -/
theorem c9_render_primitive_and_list_names :
    (∀ (n : Int),
      display_type (hpi_internal_anyvalue_from_json (JsonValue.int n)).type = "Zahl") ∧
    (∀ (ni : Int) (nf : Rat),
      display_type (hpi_internal_anyvalue_from_json (JsonValue.float ni nf)).type =
        "Fließkommazahl") ∧
    (∀ (b : Bool),
      display_type (hpi_internal_anyvalue_from_json (JsonValue.bool b)).type =
        "Wahrheitswert") ∧
    (∀ (s : String),
      display_type (hpi_internal_anyvalue_from_json (JsonValue.string s)).type =
        "Zeichenkette") ∧
    (∀ (p : Nat) (t : TypeDescriptor) (f : Option (List (String × TypeDescriptor))),
      display_type (TypeDescriptor.mk TypeKind.tList p (some t) f) =
        "Liste von " ++ display_type t) :=
  ⟨fun _ => rfl, fun _ _ => rfl, fun _ => rfl, fun _ => rfl, fun _ _ _ => rfl⟩

/-- Claim C10: converting the empty JSON array yields a `TYPE_LIST`
descriptor whose `list_inner` is the zero-initialized descriptor (kind
`TYPE_NONE`, pointer depth 0, no element type, no fields) and an empty
list payload, the element loop never having updated the tracked inner
type. -/
theorem c10_empty_array_inner_type_is_zeroed :
    hpi_internal_anyvalue_from_json (JsonValue.array []) =
      AnyValue.mk
        (TypeDescriptor.mk TypeKind.tList 0 (some zero_descriptor) Option.none)
        (AnyPayload.list []) ∧
    zero_descriptor =
      TypeDescriptor.mk TypeKind.tNone 0 Option.none Option.none :=
  ⟨rfl, rfl⟩

end Sprache
